import Mathlib

/-!
Shallow embedding of the hiero-sdk-python client engine: entity identifiers,
the node address book (Endpoint / NodeAddress wire round trips), the Hbar
value type, response-code classification, the transaction state machine with
chunking, and the client factories.  The SDK package itself is not present in
the repository snapshot (only its unit tests and example callers are), so the
embedded operations are modelled from the specification, with the unit tests
under src/tests pinning concrete behaviour where they overlap.
-/

/-- Modelled from the spec: the `shard.realm.number` entity identifier
(`AccountId` in the SDK); the missing source is
`hiero_sdk_python/account/account_id.py`.  The optional alias plays no role
in the claims below and is omitted. -/
structure AccountId where
  shard : Nat
  realm : Nat
  num : Nat
deriving DecidableEq, Repr

/-- Modelled from the spec: wire form of an `AccountId` (the external protobuf `AccountID` message shape). -/
structure AccountIdProto where
  shardNum : Nat
  realmNum : Nat
  accountNum : Nat
deriving DecidableEq, Repr

/-- Modelled from the spec: `AccountId._to_proto`. -/
def AccountId.to_proto (a : AccountId) : AccountIdProto :=
  { shardNum := a.shard, realmNum := a.realm, accountNum := a.num }

/-- Modelled from the spec: `AccountId._from_proto`. -/
def AccountId.from_proto (p : AccountIdProto) : AccountId :=
  { shard := p.shardNum, realm := p.realmNum, num := p.accountNum }

/-- Modelled from the spec: an address-book `Endpoint`
(`hiero_sdk_python/address_book/endpoint.py`, missing from the snapshot):
optional IPv4 address bytes, optional port, optional domain name. -/
structure Endpoint where
  address : Option (List Nat)
  port : Option Nat
  domain_name : Option String
deriving DecidableEq, Repr

/-- Modelled from the spec: wire form of an `Endpoint` (the external protobuf `ServiceEndpoint` message shape): every field carries the protobuf default when unset. -/
structure ServiceEndpointProto where
  ipAddressV4 : List Nat
  port : Nat
  domain_name : String
deriving DecidableEq, Repr

/-- Modelled from the spec: `Endpoint._to_proto` substitutes the
protocol-appropriate defaults (empty bytes, 0, empty string) for any unset
field rather than failing. -/
def Endpoint.to_proto (e : Endpoint) : ServiceEndpointProto :=
  { ipAddressV4 := e.address.getD []
    port := e.port.getD 0
    domain_name := e.domain_name.getD "" }

/-- Modelled from the spec: `Endpoint._from_proto` decodes a wire
`ServiceEndpoint`; the port-normalization rule maps a raw port of `0` or the
legacy `50111` to the canonical default `50211` and passes any other value
through unchanged.  This rule applies only on the wire-decoding path. -/
def Endpoint.from_proto (p : ServiceEndpointProto) : Endpoint :=
  { address := some p.ipAddressV4
    port := some (if p.port = 0 ∨ p.port = 50111 then 50211 else p.port)
    domain_name := some p.domain_name }

/-- Modelled from the spec: UTF-8 bytes of a string, as natural numbers (the missing Python SDK stores an address given as text in its byte form). -/
def strBytes (s : String) : List Nat :=
  s.toUTF8.toList.map (fun b => b.toNat)

/-- Modelled from the spec: structured (dict) import record for an endpoint; each of the three keys may be present or absent. -/
structure EndpointDict where
  ip_address_v4 : Option String
  port : Option Nat
  domain_name : Option String
deriving DecidableEq, Repr

/-- Modelled from the spec: `Endpoint.from_dict` fails with a validation
error if any of the three mandatory keys is absent, and otherwise stores the
supplied values as given — it never applies the port-normalization rule. -/
def Endpoint.from_dict (d : EndpointDict) : Except String Endpoint :=
  match d.ip_address_v4, d.port, d.domain_name with
  | some ip, some p, some dn =>
      .ok { address := some (strBytes ip), port := some p, domain_name := some dn }
  | _, _, _ => .error "JSON data must contain ip_address_v4, port and domain_name"

/-- Modelled from the spec: a `NodeAddress` address-book entry
(`hiero_sdk_python/address_book/node_address.py`, missing from the
snapshot).  `account_id` may be absent. -/
structure NodeAddress where
  public_key : String
  account_id : Option AccountId
  node_id : Nat
  cert_hash : List Nat
  addresses : List Endpoint
  description : String
deriving DecidableEq, Repr

/-- Modelled from the spec: wire form of a `NodeAddress` (the external protobuf `NodeAddress` message shape); the
message-typed field `nodeAccountId` tracks presence, so it is an `Option`:
`none` means the field is not set (`HasField` is false). -/
structure NodeAddressProto where
  RSA_PubKey : String
  nodeAccountId : Option AccountIdProto
  nodeId : Nat
  nodeCertHash : List Nat
  serviceEndpoint : List ServiceEndpointProto
  description : String
deriving DecidableEq, Repr

/-- Modelled from the spec: `NodeAddress._to_proto` leaves the
`nodeAccountId` field unset (not zero-valued) when `account_id` is absent. -/
def NodeAddress.to_proto (n : NodeAddress) : NodeAddressProto :=
  { RSA_PubKey := n.public_key
    nodeAccountId := n.account_id.map AccountId.to_proto
    nodeId := n.node_id
    nodeCertHash := n.cert_hash
    serviceEndpoint := n.addresses.map Endpoint.to_proto
    description := n.description }

/-- Modelled from the spec: `NodeAddress._from_proto` decodes an absent
`nodeAccountId` field as an absent `account_id`, never as `0.0.0`. -/
def NodeAddress.from_proto (p : NodeAddressProto) : NodeAddress :=
  { public_key := p.RSA_PubKey
    account_id := p.nodeAccountId.map AccountId.from_proto
    node_id := p.nodeId
    cert_hash := p.nodeCertHash
    addresses := p.serviceEndpoint.map Endpoint.from_proto
    description := p.description }

/-- Modelled from the spec: the supported Hbar denominations
(`hiero_sdk_python/hbar_unit.py`, missing from the snapshot). -/
inductive HbarUnit where
  | tinybar
  | microbar
  | millibar
  | hbar
  | kilobar
  | megabar
  | gigabar
deriving DecidableEq, Repr

/-- Modelled from the spec: each denomination is a fixed exact integer
multiple of the minor unit (tinybar); the multipliers are pinned by
`src/tests/unit/hbar_test.py`. -/
def HbarUnit.tinybars : HbarUnit → Int
  | .tinybar => 1
  | .microbar => 100
  | .millibar => 100000
  | .hbar => 100000000
  | .kilobar => 100000000000
  | .megabar => 100000000000000
  | .gigabar => 100000000000000000

/-- Modelled from the spec: the Hbar value type stores a canonical integer
amount of tinybars (`hiero_sdk_python/hbar.py`, missing from the snapshot). -/
structure Hbar where
  amount_in_tinybar : Int
deriving DecidableEq, Repr

/-- Modelled from the spec: `Hbar.of(amount, unit)` for an integer amount is
the exact integer scaling by the denomination multiplier, with no rounding. -/
def Hbar.of (amount : Int) (u : HbarUnit) : Hbar :=
  { amount_in_tinybar := amount * u.tinybars }

/-- Modelled from the spec: `Hbar.to_tinybars` returns the canonical stored
amount. -/
def Hbar.to_tinybars (h : Hbar) : Int :=
  h.amount_in_tinybar

/-- Modelled from the spec: a response status value received from the
network.  Construction from any integer value always succeeds so that a code
absent from the known enumeration is representable
(`hiero_sdk_python/response_code.py`, missing from the snapshot). -/
structure ResponseCode where
  value : Int
deriving DecidableEq, Repr

/-- Modelled from the spec: the SUCCESS member of the known enumeration (missing `response_code.py`). -/
def ResponseCode.SUCCESS : Int := 22

/-- Modelled from the spec: the retryable members of the known enumeration
(node busy, platform not yet active, receipt not yet known). -/
def retryableResponseCodes : List Int := [12, 21, 26]

/-- Modelled from the spec: the members of the known (closed) enumeration.
Only a representative subset appears here — the codes the tests and examples
use (OK, INVALID_SIGNATURE, DUPLICATE_TRANSACTION, BUSY, UNKNOWN, SUCCESS,
PLATFORM_NOT_ACTIVE, SPENDER_DOES_NOT_HAVE_ALLOWANCE) — since the full
enumeration is in the missing `response_code.py`; the value 999 used by
`src/examples/response_code.py` is not a member. -/
def knownResponseCodes : List Int := [0, 7, 11, 12, 21, 22, 26, 292]

/-- Modelled from the spec: classification of a status value — success, retryable, known-fatal, or unknown (a value outside the known enumeration). -/
inductive StatusClass where
  | success
  | retryable
  | fatal
  | unknown
deriving DecidableEq, Repr

/-- Modelled from the spec: derived classification of a response code. -/
def classify (rc : ResponseCode) : StatusClass :=
  if rc.value = ResponseCode.SUCCESS then .success
  else if rc.value ∈ retryableResponseCodes then .retryable
  else if rc.value ∈ knownResponseCodes then .fatal
  else .unknown

/-- Modelled from the spec: the `is_unknown` predicate of a response code. -/
def ResponseCode.is_unknown (rc : ResponseCode) : Bool :=
  classify rc = StatusClass.unknown

/-- Modelled from the spec: a TransactionId — payer, valid-start instant
(in minimal time units), scheduled flag, optional nonce.  Uniqueness of
`(payer, valid_start)` is the deduplication key. -/
structure TransactionId where
  payer : AccountId
  valid_start : Nat
  scheduled : Bool
  nonce : Option Nat
deriving DecidableEq, Repr

/-- Modelled from the spec: derive a fresh TransactionId by advancing the
`valid_start` by `i` minimal time units. -/
def TransactionId.advance (tid : TransactionId) (i : Nat) : TransactionId :=
  { tid with valid_start := tid.valid_start + i }

/-- Modelled from the spec: chunk metadata attached to chunk `i` of `n` so
that the network can reassemble the payload. -/
structure ChunkInfo where
  number : Nat
  total : Nat
  initial_transaction_id : TransactionId
deriving DecidableEq, Repr

/-- Modelled from the spec: the TransactionIds of the `n` sub-transactions
of a chunked submission — chunk `i` (1-indexed) advances the base id by `i`
minimal time units. -/
def chunk_transaction_ids (base : TransactionId) (n : Nat) : List TransactionId :=
  (List.range n).map (fun j => base.advance (j + 1))

/-- Modelled from the spec: the chunk metadata records of a chunked
submission of `n` chunks; every chunk carries the same base id as its
`initial_transaction_id`. -/
def chunk_infos (base : TransactionId) (n : Nat) : List ChunkInfo :=
  (List.range n).map (fun j => { number := j + 1, total := n, initial_transaction_id := base })

/-- Modelled from the spec: `get_required_chunks` of the chunking strategy
(`FileAppendTransaction`, missing from the snapshot) is a pure function of
the payload length and the chunk size: the ceiling of their quotient, and 1
for an empty payload. -/
def get_required_chunks (payloadLen chunk_size : Nat) : Nat :=
  if payloadLen = 0 then 1 else (payloadLen + chunk_size - 1) / chunk_size

/-- Modelled from the spec: the private half of a key pair, kept abstract —
only its textual identity matters to the claims below. -/
structure PrivateKey where
  key_data : String
deriving DecidableEq, Repr

/-- Modelled from the spec: the named ledgers a Client factory can bind to. -/
inductive NetworkName where
  | mainnet
  | testnet
  | previewnet
deriving DecidableEq, Repr

/-- Modelled from the spec: a Client binds a named network to an optional
operator identity (`hiero_sdk_python/client/client.py`, missing from the
snapshot); the factory constructors create it with no operator set. -/
structure Client where
  network : NetworkName
  operator_account_id : Option AccountId
  operator_private_key : Option PrivateKey
deriving DecidableEq, Repr

/-- Modelled from the spec: `Client.for_mainnet()`. -/
def Client.for_mainnet : Client :=
  { network := .mainnet, operator_account_id := none, operator_private_key := none }

/-- Modelled from the spec: `Client.for_testnet()`. -/
def Client.for_testnet : Client :=
  { network := .testnet, operator_account_id := none, operator_private_key := none }

/-- Modelled from the spec: `Client.for_previewnet()`. -/
def Client.for_previewnet : Client :=
  { network := .previewnet, operator_account_id := none, operator_private_key := none }

/-- Modelled from the spec: `Client.set_operator(account_id, key)` stores
exactly the supplied operator identity. -/
def Client.set_operator (c : Client) (account_id : AccountId) (key : PrivateKey) : Client :=
  { c with operator_account_id := some account_id, operator_private_key := some key }

/-- Modelled from the spec: the transaction lifecycle states Draft → Frozen → Executed (missing `transaction.py`). -/
inductive TxState where
  | draft
  | frozen
  | executed
deriving DecidableEq, Repr

/-- Modelled from the spec: the abstract Transaction state machine with the
representative operation-specific fields of a file-append transaction
(`hiero_sdk_python/transaction/transaction.py` and
`file_append_transaction.py`, missing from the snapshot). -/
structure Transaction where
  state : TxState
  file_id : Option AccountId
  contents : List Nat
  chunk_size : Nat
  max_chunks : Nat
  transaction_id : Option TransactionId
  node_account_id : Option AccountId
  signatures : List PrivateKey
deriving DecidableEq, Repr

/-- Modelled from the spec: the errors surfaced by the engine, as a closed variant — a caller/state error, a post-consensus receipt-status error carrying the status code and the transaction id, and transport-level failures (missing `exceptions.py`). -/
inductive SdkError where
  | state_error (msg : String)
  | receipt_status_error (status : Int) (transaction_id : TransactionId)
  | transport_error (attempts : Nat)
  | max_attempts_error (attempts : Nat)
deriving DecidableEq, Repr

/-- Modelled from the spec: the message used by every rejected field mutation on a frozen or executed transaction. -/
def immutableMsg : String := "Transaction is immutable; it has been frozen"

/-- Modelled from the spec: the message used by a rejected `execute` on a transaction that is not in the Frozen state. -/
def notFrozenMsg : String := "Transaction must be frozen and not yet executed"

/-- Modelled from the spec: every field-mutation method first checks the
state and fails with a state error unless the transaction is still a draft. -/
def Transaction.require_not_frozen (tx : Transaction) : Except SdkError Unit :=
  if tx.state = .draft then .ok () else .error (.state_error immutableMsg)

/-- Modelled from the spec: `set_file_id` setter. -/
def Transaction.set_file_id (tx : Transaction) (fid : AccountId) : Except SdkError Transaction :=
  match tx.require_not_frozen with
  | .ok _ => .ok { tx with file_id := some fid }
  | .error e => .error e

/-- Modelled from the spec: `set_contents` setter. -/
def Transaction.set_contents (tx : Transaction) (c : List Nat) : Except SdkError Transaction :=
  match tx.require_not_frozen with
  | .ok _ => .ok { tx with contents := c }
  | .error e => .error e

/-- Modelled from the spec: `set_chunk_size` setter. -/
def Transaction.set_chunk_size (tx : Transaction) (s : Nat) : Except SdkError Transaction :=
  match tx.require_not_frozen with
  | .ok _ => .ok { tx with chunk_size := s }
  | .error e => .error e

/-- Modelled from the spec: `set_max_chunks` setter. -/
def Transaction.set_max_chunks (tx : Transaction) (m : Nat) : Except SdkError Transaction :=
  match tx.require_not_frozen with
  | .ok _ => .ok { tx with max_chunks := m }
  | .error e => .error e

/-- Modelled from the spec: `freeze_with(client)` transitions Draft→Frozen,
deriving the transaction id from the operator and the current instant when
unset (the instant is passed explicitly here). -/
def Transaction.freeze_with (tx : Transaction) (client : Client) (now : Nat) :
    Except SdkError Transaction :=
  match tx.state with
  | .draft =>
      match client.operator_account_id with
      | some op =>
          let tid := tx.transaction_id.getD
            { payer := op, valid_start := now, scheduled := false, nonce := none }
          .ok { tx with state := .frozen, transaction_id := some tid }
      | none => .error (.state_error "Client has no operator")
  | _ => .error (.state_error immutableMsg)

/-- Modelled from the spec: a terminal receipt — the ledger-reported status and the transaction id it resolves (missing `transaction_receipt.py`). -/
structure Receipt where
  status : Int
  transaction_id : TransactionId
deriving DecidableEq, Repr

/-- Modelled from the spec: the receipt-polling loop of the engine.  The
ledger side is made explicit as the ordered list of statuses the successive
polls would observe; `fuel` is the remaining attempt budget.  A retryable
status is retried; a success status resolves to a receipt; any terminal
ledger-reported failure stops the loop at once — it is surfaced as a
receipt-status error carrying the status code and the transaction id, and it
is never retried. -/
def poll_receipt (tid : TransactionId) : Nat → List Int → Except SdkError Receipt
  | 0, _ => .error (.max_attempts_error 0)
  | fuel + 1, [] => .error (.transport_error (fuel + 1))
  | fuel + 1, s :: rest =>
      match classify { value := s } with
      | .retryable => poll_receipt tid fuel rest
      | .success => .ok { status := s, transaction_id := tid }
      | _ => .error (.receipt_status_error s tid)

/-- Modelled from the spec: `execute(client)` is valid only in the Frozen
state; it polls the receipt for the transaction id and surfaces the
resolution.  The ledger-side inputs (observed receipt statuses, attempt
budget) are explicit arguments. -/
def Transaction.execute (tx : Transaction) (fuel : Nat) (statuses : List Int) :
    Except SdkError (Receipt × Transaction) :=
  if tx.state = .frozen then
    match tx.transaction_id with
    | some tid =>
        match poll_receipt tid fuel statuses with
        | .ok r => .ok (r, { tx with state := .executed })
        | .error e => .error e
    | none => .error (.state_error notFrozenMsg)
  else .error (.state_error notFrozenMsg)

/-- Sample base TransactionId used by concrete witnesses. -/
def sampleBaseTid : TransactionId :=
  { payer := { shard := 0, realm := 0, num := 2 }, valid_start := 100,
    scheduled := false, nonce := none }

/-- Sample frozen transaction used by concrete witnesses. -/
def sampleFrozenTx : Transaction :=
  { state := .frozen, file_id := none, contents := [1, 2, 3], chunk_size := 1024,
    max_chunks := 20, transaction_id := some sampleBaseTid, node_account_id := none,
    signatures := [] }

/-- Sample executed transaction used by concrete witnesses. -/
def sampleExecutedTx : Transaction :=
  { sampleFrozenTx with state := .executed }

/-- Sample NodeAddress with an absent account id, used by a concrete
witness; it mirrors the node the unit test builds. -/
def sampleNodeNoAccount : NodeAddress :=
  { public_key := "sample-public-key", account_id := none, node_id := 1234,
    cert_hash := [1, 2, 3], addresses := [], description := "No account" }

/-- C1: a chunked submission of `n` chunks yields `n` TransactionIds, all
chunk metadata records carry the base id as `initial_transaction_id`, chunk
`j` (0-indexed) advances the base `valid_start` by `j + 1` minimal time
units, the `valid_start` values are strictly increasing in chunk-index
order, and the ids are pairwise distinct. -/
theorem C1_chunk_transaction_ids (base : TransactionId) (n : Nat) :
    (chunk_transaction_ids base n).length = n ∧
    (chunk_infos base n).length = n ∧
    (∀ ci ∈ chunk_infos base n, ci.initial_transaction_id = base) ∧
    (∀ j, j < n → (chunk_transaction_ids base n)[j]? =
      some { base with valid_start := base.valid_start + (j + 1) }) ∧
    (chunk_transaction_ids base n).Pairwise (fun s t => s.valid_start < t.valid_start) ∧
    (chunk_transaction_ids base n).Pairwise (fun s t => s ≠ t) := by
  have hlt : (chunk_transaction_ids base n).Pairwise
      (fun s t => s.valid_start < t.valid_start) := by
    apply List.Pairwise.map (fun j => base.advance (j + 1))
      (fun a b (h : a < b) => by
        simp only [TransactionId.advance]
        omega)
    exact List.pairwise_lt_range n
  refine ⟨by simp [chunk_transaction_ids], by simp [chunk_infos], ?_, ?_, hlt, ?_⟩
  · intro ci hci
    simp only [chunk_infos, List.mem_map] at hci
    obtain ⟨j, _, rfl⟩ := hci
    rfl
  · intro j hj
    simp [chunk_transaction_ids, List.getElem?_map, List.getElem?_range, hj,
      TransactionId.advance]
  · exact hlt.imp (fun h heq => by rw [heq] at h; exact lt_irrefl _ h)

/-- C1 witness: the chunk-id properties evaluated for three chunks over the
sample base id. -/
theorem C1_chunk_transaction_ids_witness :
    (chunk_transaction_ids sampleBaseTid 3).length = 3 ∧
    (chunk_infos sampleBaseTid 3).length = 3 ∧
    (∀ ci ∈ chunk_infos sampleBaseTid 3, ci.initial_transaction_id = sampleBaseTid) ∧
    (∀ j, j < 3 → (chunk_transaction_ids sampleBaseTid 3)[j]? =
      some { sampleBaseTid with valid_start := sampleBaseTid.valid_start + (j + 1) }) ∧
    (chunk_transaction_ids sampleBaseTid 3).Pairwise
      (fun s t => s.valid_start < t.valid_start) ∧
    (chunk_transaction_ids sampleBaseTid 3).Pairwise (fun s t => s ≠ t) :=
  C1_chunk_transaction_ids sampleBaseTid 3

/-- C2: every field-mutation call on a Frozen transaction fails with a state
error (the transaction value itself is unchanged, the call returning only
the error), and `execute` on an Executed transaction fails with a state
error. -/
theorem C2_frozen_rejects_mutation (tx tx2 : Transaction) (fid : AccountId)
    (c : List Nat) (s m fuel : Nat) (statuses : List Int)
    (hf : tx.state = .frozen) (he : tx2.state = .executed) :
    tx.set_file_id fid = .error (.state_error immutableMsg) ∧
    tx.set_contents c = .error (.state_error immutableMsg) ∧
    tx.set_chunk_size s = .error (.state_error immutableMsg) ∧
    tx.set_max_chunks m = .error (.state_error immutableMsg) ∧
    tx2.execute fuel statuses = .error (.state_error notFrozenMsg) := by
  have hd : ¬ tx.state = TxState.draft := by rw [hf]; intro h; cases h
  have hreq : tx.require_not_frozen = .error (.state_error immutableMsg) := by
    simp [Transaction.require_not_frozen, hd]
  have hnf : ¬ tx2.state = TxState.frozen := by rw [he]; intro h; cases h
  refine ⟨?_, ?_, ?_, ?_, ?_⟩ <;>
    simp [Transaction.set_file_id, Transaction.set_contents, Transaction.set_chunk_size,
      Transaction.set_max_chunks, Transaction.execute, hreq, hnf]

/-- C2 witness: the rejections evaluated on the sample frozen and executed
transactions. -/
theorem C2_frozen_rejects_mutation_witness :
    sampleFrozenTx.set_file_id { shard := 0, realm := 0, num := 5 } =
      .error (.state_error immutableMsg) ∧
    sampleFrozenTx.set_contents [9] = .error (.state_error immutableMsg) ∧
    sampleFrozenTx.set_chunk_size 512 = .error (.state_error immutableMsg) ∧
    sampleFrozenTx.set_max_chunks 10 = .error (.state_error immutableMsg) ∧
    sampleExecutedTx.execute 3 [22] = .error (.state_error notFrozenMsg) :=
  C2_frozen_rejects_mutation sampleFrozenTx sampleExecutedTx
    { shard := 0, realm := 0, num := 5 } [9] 512 10 3 [22] rfl rfl

/-- C3: when the polled receipt status is a ledger-reported fatal code, the
engine surfaces a receipt-status error carrying the transaction id and the
specific status code — a variant distinct from every transport failure — and
it never retries: the result is independent of the remaining attempt budget
and of any further statuses the ledger would have reported. -/
theorem C3_receipt_status_fatal (tx : Transaction) (tid : TransactionId)
    (s : Int) (rest : List Int) (fuel k : Nat)
    (hf : tx.state = .frozen) (htid : tx.transaction_id = some tid)
    (hfatal : classify { value := s } = .fatal) :
    tx.execute (fuel + 1) (s :: rest) = .error (.receipt_status_error s tid) ∧
    poll_receipt tid (fuel + 1) (s :: rest) = .error (.receipt_status_error s tid) ∧
    SdkError.receipt_status_error s tid ≠ .transport_error k ∧
    SdkError.receipt_status_error s tid ≠ .max_attempts_error k := by
  have hpoll : poll_receipt tid (fuel + 1) (s :: rest) =
      .error (.receipt_status_error s tid) := by
    simp [poll_receipt, hfatal]
  refine ⟨?_, hpoll, by simp, by simp⟩
  simp [Transaction.execute, hf, htid, hpoll]

/-- C3 witness: status 7 (INVALID_SIGNATURE) observed on the first poll of
the sample frozen transaction is surfaced as a receipt-status error even
though budget and further statuses remain. -/
theorem C3_receipt_status_fatal_witness :
    sampleFrozenTx.execute (3 + 1) (7 :: [22]) =
      .error (.receipt_status_error 7 sampleBaseTid) ∧
    poll_receipt sampleBaseTid (3 + 1) (7 :: [22]) =
      .error (.receipt_status_error 7 sampleBaseTid) ∧
    SdkError.receipt_status_error 7 sampleBaseTid ≠ .transport_error 2 ∧
    SdkError.receipt_status_error 7 sampleBaseTid ≠ .max_attempts_error 2 :=
  C3_receipt_status_fatal sampleFrozenTx sampleBaseTid 7 [22] 3 2 rfl rfl (by decide)

/-- C4: `Endpoint._from_proto` maps a raw wire port of 0 or 50111 to 50211
and preserves any other port value; the constructor and `from_dict` store
the supplied port as given, never applying the mapping. -/
theorem C4_port_mapping (a : List Nat) (d : String) (p : Nat) (ip : String) :
    (Endpoint.from_proto { ipAddressV4 := a, port := 0, domain_name := d }).port =
      some 50211 ∧
    (Endpoint.from_proto { ipAddressV4 := a, port := 50111, domain_name := d }).port =
      some 50211 ∧
    (p ≠ 0 → p ≠ 50111 →
      (Endpoint.from_proto { ipAddressV4 := a, port := p, domain_name := d }).port =
        some p) ∧
    (Endpoint.mk (some a) (some p) (some d)).port = some p ∧
    Endpoint.from_dict { ip_address_v4 := some ip, port := some p, domain_name := some d } =
      .ok { address := some (strBytes ip), port := some p, domain_name := some d } := by
  refine ⟨by simp [Endpoint.from_proto], by simp [Endpoint.from_proto], ?_, rfl, rfl⟩
  intro h0 h1
  simp [Endpoint.from_proto, h0, h1]

/-- C4 witness: the port mapping evaluated at the ports the unit test uses
(0, 50111 and 80). -/
theorem C4_port_mapping_witness :
    (Endpoint.from_proto
      { ipAddressV4 := [127, 0, 1, 1], port := 80, domain_name := "redpanda.com" }).port =
      some 80 :=
  (C4_port_mapping [127, 0, 1, 1] "redpanda.com" 80 "127.0.0.1").2.2.1
    (by decide) (by decide)

/-- C5 counterexample: an Endpoint whose three fields are all set, with the
valid port value 50111, does not survive the wire round trip — decoding maps
the port to 50211 — so the round trip is not lossless for all valid field
combinations. -/
theorem C5_roundtrip_counterexample :
    Endpoint.from_proto (Endpoint.to_proto
      { address := some [192, 168, 1, 1], port := some 50111,
        domain_name := some "example.com" }) ≠
    { address := some [192, 168, 1, 1], port := some 50111,
      domain_name := some "example.com" } := by
  decide

/-- C5 (amended): the wire round trip `_to_proto` then `_from_proto` is the
identity on every Endpoint whose address, port and domain name are all set
and whose port is neither 0 nor the legacy value 50111. -/
theorem C5_roundtrip_amended (a : List Nat) (p : Nat) (d : String)
    (h0 : p ≠ 0) (h1 : p ≠ 50111) :
    Endpoint.from_proto (Endpoint.to_proto
      { address := some a, port := some p, domain_name := some d }) =
    { address := some a, port := some p, domain_name := some d } := by
  simp [Endpoint.to_proto, Endpoint.from_proto, h0, h1]

/-- C5 witness: the round trip evaluated at the triple the unit test uses. -/
theorem C5_roundtrip_amended_witness :
    Endpoint.from_proto (Endpoint.to_proto
      { address := some [192, 168, 1, 1], port := some 8080,
        domain_name := some "example.com" }) =
    { address := some [192, 168, 1, 1], port := some 8080,
      domain_name := some "example.com" } :=
  C5_roundtrip_amended [192, 168, 1, 1] 8080 "example.com" (by decide) (by decide)

/-- C6: for every NodeAddress whose `account_id` is absent, `_to_proto`
leaves the `nodeAccountId` field unset and decoding the result with
`_from_proto` yields an absent `account_id` again, never `0.0.0`. -/
theorem C6_absent_account_id_roundtrip (n : NodeAddress) (h : n.account_id = none) :
    n.to_proto.nodeAccountId = none ∧
    (NodeAddress.from_proto n.to_proto).account_id = none := by
  constructor <;> simp [NodeAddress.to_proto, NodeAddress.from_proto, h]

/-- C6 witness: the absent-account-id round trip evaluated on the node the
unit test builds. -/
theorem C6_absent_account_id_roundtrip_witness :
    sampleNodeNoAccount.to_proto.nodeAccountId = none ∧
    (NodeAddress.from_proto sampleNodeNoAccount.to_proto).account_id = none :=
  C6_absent_account_id_roundtrip sampleNodeNoAccount rfl

/-- C7: for a positive chunk size, `get_required_chunks` returns 1 on an
empty payload and the exact ceiling of payload length over chunk size on a
non-empty one; it is a function of those two numbers alone. -/
theorem C7_required_chunks (len cs : Nat) (hcs : 0 < cs) :
    (len = 0 → get_required_chunks len cs = 1) ∧
    (0 < len → get_required_chunks len cs = ⌈(len : ℚ) / (cs : ℚ)⌉₊) := by
  constructor
  · intro h
    simp [get_required_chunks, h]
  · intro hlen
    have hne : ¬ len = 0 := Nat.pos_iff_ne_zero.mp hlen
    have hdef : get_required_chunks len cs = len ⌈/⌉ cs := by
      rw [Nat.ceilDiv_eq_add_pred_div]
      simp [get_required_chunks, hne]
    rw [hdef]
    have hle : len ≤ cs * (len ⌈/⌉ cs) := (ceilDiv_le_iff_le_mul hcs).mp le_rfl
    have hrpos : 0 < len ⌈/⌉ cs := by
      rcases Nat.eq_zero_or_pos (len ⌈/⌉ cs) with h0 | h
      · rw [h0, Nat.mul_zero] at hle
        omega
      · exact h
    have hlt : cs * (len ⌈/⌉ cs - 1) < len := by
      by_contra hcon
      push_neg at hcon
      have h2 : len ⌈/⌉ cs ≤ len ⌈/⌉ cs - 1 := (ceilDiv_le_iff_le_mul hcs).mpr hcon
      omega
    symm
    rw [Nat.ceil_eq_iff hrpos.ne']
    refine ⟨?_, ?_⟩
    · rw [lt_div_iff₀ (by exact_mod_cast hcs : (0 : ℚ) < cs)]
      have hn : (len ⌈/⌉ cs - 1) * cs < len := by
        rw [Nat.mul_comm]
        exact hlt
      exact_mod_cast hn
    · rw [div_le_iff₀ (by exact_mod_cast hcs : (0 : ℚ) < cs)]
      have hn : len ≤ (len ⌈/⌉ cs) * cs := by
        rw [Nat.mul_comm]
        exact hle
      exact_mod_cast hn

/-- C7 witness: a 5500-byte payload in 1024-byte chunks needs exactly 6
chunks, and the empty payload needs 1. -/
theorem C7_required_chunks_witness :
    0 < 1024 ∧
    ((5500 = 0 → get_required_chunks 5500 1024 = 1) ∧
      (0 < 5500 → get_required_chunks 5500 1024 = ⌈(5500 : ℚ) / (1024 : ℚ)⌉₊)) ∧
    get_required_chunks 0 1024 = 1 ∧
    get_required_chunks 5500 1024 = 6 :=
  ⟨by decide, C7_required_chunks 5500 1024 (by decide), by decide, by decide⟩

/-- C8: constructing a ResponseCode from any value outside the known
enumeration succeeds (construction is total) and the result is classified
unknown — `is_unknown` holds and the classification is none of success,
retryable or fatal. -/
theorem C8_unknown_status (v : Int) (h : v ∉ knownResponseCodes) :
    (ResponseCode.mk v).is_unknown = true ∧
    classify (ResponseCode.mk v) = .unknown ∧
    classify (ResponseCode.mk v) ≠ .success ∧
    classify (ResponseCode.mk v) ≠ .retryable ∧
    classify (ResponseCode.mk v) ≠ .fatal := by
  have h22 : ¬ v = ResponseCode.SUCCESS := by
    intro hv
    subst hv
    exact h (by decide)
  have hret : ¬ v ∈ retryableResponseCodes := by
    intro hv
    apply h
    fin_cases hv <;> decide
  have hc : classify (ResponseCode.mk v) = StatusClass.unknown := by
    simp [classify, h22, hret, h]
  have hu : (ResponseCode.mk v).is_unknown = true := by
    unfold ResponseCode.is_unknown
    exact decide_eq_true hc
  refine ⟨hu, hc, ?_, ?_, ?_⟩ <;> rw [hc] <;> decide

/-- C8 witness: the unknown-status classification evaluated at 999, the
value the example feeds to the enumeration. -/
theorem C8_unknown_status_witness :
    (999 : Int) ∉ knownResponseCodes ∧
    (ResponseCode.mk 999).is_unknown = true ∧
    classify (ResponseCode.mk 999) = .unknown :=
  ⟨by decide, (C8_unknown_status 999 (by decide)).1, (C8_unknown_status 999 (by decide)).2.1⟩

/-- C9: constructing an Hbar from an integer amount in any supported unit
and converting back to tinybars is the exact integer scaling by that unit
multiplier, with the multiplier table pinned per unit; in particular 1
gigabar converts to exactly 10^17 tinybars. -/
theorem C9_hbar_exact_scaling (a : Int) :
    (∀ u : HbarUnit, (Hbar.of a u).to_tinybars = a * u.tinybars) ∧
    (Hbar.of a .tinybar).to_tinybars = a ∧
    (Hbar.of a .microbar).to_tinybars = a * 100 ∧
    (Hbar.of a .millibar).to_tinybars = a * 100000 ∧
    (Hbar.of a .hbar).to_tinybars = a * 100000000 ∧
    (Hbar.of a .kilobar).to_tinybars = a * 100000000000 ∧
    (Hbar.of a .megabar).to_tinybars = a * 100000000000000 ∧
    (Hbar.of a .gigabar).to_tinybars = a * 10 ^ 17 ∧
    (Hbar.of 1 .gigabar).to_tinybars = 10 ^ 17 := by
  refine ⟨fun u => rfl, ?_, rfl, rfl, rfl, rfl, rfl, ?_, ?_⟩
  · exact mul_one a
  · show a * 100000000000000000 = a * 10 ^ 17
    norm_num
  · show (1 : Int) * 100000000000000000 = 10 ^ 17
    norm_num

/-- C9 witness: the exact scaling evaluated at amount 50, matching the unit
test table. -/
theorem C9_hbar_exact_scaling_witness :
    (∀ u : HbarUnit, (Hbar.of 50 u).to_tinybars = 50 * u.tinybars) ∧
    (Hbar.of 50 .tinybar).to_tinybars = 50 ∧
    (Hbar.of 50 .microbar).to_tinybars = 50 * 100 ∧
    (Hbar.of 50 .millibar).to_tinybars = 50 * 100000 ∧
    (Hbar.of 50 .hbar).to_tinybars = 50 * 100000000 ∧
    (Hbar.of 50 .kilobar).to_tinybars = 50 * 100000000000 ∧
    (Hbar.of 50 .megabar).to_tinybars = 50 * 100000000000000 ∧
    (Hbar.of 50 .gigabar).to_tinybars = 50 * 10 ^ 17 ∧
    (Hbar.of 1 .gigabar).to_tinybars = 10 ^ 17 :=
  C9_hbar_exact_scaling 50

/-- C10: each factory constructor yields a Client bound to its named
network with both operator fields absent, and `set_operator` stores exactly
the supplied account id and key while preserving the network. -/
theorem C10_client_factory_operator (c : Client) (account_id : AccountId)
    (key : PrivateKey) :
    Client.for_testnet.network = .testnet ∧
    Client.for_testnet.operator_account_id = none ∧
    Client.for_testnet.operator_private_key = none ∧
    Client.for_mainnet.network = .mainnet ∧
    Client.for_mainnet.operator_account_id = none ∧
    Client.for_mainnet.operator_private_key = none ∧
    Client.for_previewnet.network = .previewnet ∧
    Client.for_previewnet.operator_account_id = none ∧
    Client.for_previewnet.operator_private_key = none ∧
    (c.set_operator account_id key).operator_account_id = some account_id ∧
    (c.set_operator account_id key).operator_private_key = some key ∧
    (c.set_operator account_id key).network = c.network :=
  ⟨rfl, rfl, rfl, rfl, rfl, rfl, rfl, rfl, rfl, rfl, rfl, rfl⟩

/-- C10 witness: the factory and operator properties evaluated on a testnet
client with the credentials the unit test uses. -/
theorem C10_client_factory_operator_witness :
    (Client.for_testnet.set_operator { shard := 0, realm := 0, num := 12345 }
      { key_data := "ed25519-test-key" }).operator_account_id =
      some { shard := 0, realm := 0, num := 12345 } ∧
    (Client.for_testnet.set_operator { shard := 0, realm := 0, num := 12345 }
      { key_data := "ed25519-test-key" }).operator_private_key =
      some { key_data := "ed25519-test-key" } ∧
    (Client.for_testnet.set_operator { shard := 0, realm := 0, num := 12345 }
      { key_data := "ed25519-test-key" }).network = Client.for_testnet.network :=
  ⟨(C10_client_factory_operator Client.for_testnet
      { shard := 0, realm := 0, num := 12345 } { key_data := "ed25519-test-key" }).2.2.2.2.2.2.2.2.2.1,
   (C10_client_factory_operator Client.for_testnet
      { shard := 0, realm := 0, num := 12345 } { key_data := "ed25519-test-key" }).2.2.2.2.2.2.2.2.2.2.1,
   (C10_client_factory_operator Client.for_testnet
      { shard := 0, realm := 0, num := 12345 } { key_data := "ed25519-test-key" }).2.2.2.2.2.2.2.2.2.2.2⟩
